import Mathlib

/-!
Shallow embedding of the pyaardvark control library (pyaardvark/aardvark.py)
for verification of its specification.

The module `pyaardvark.constants` is not part of the sources at hand; the
numeric constants it provides (GPIO pin bitmasks, interface-configuration
codes, error codes) are modelled from the spec: pins are six distinct
single-bit masks, the four joint configurations are distinct codes together
with a distinct query sentinel, and error codes are negative integers.
Only those relative facts are used by the proofs.

The external transport (the `aardvark_py` C binding) is modelled by
parameters: each operation takes the integer status the transport would
return for the (at most one) call it can make, and returns, besides its
result, the list of transport calls it issued.
-/

/-! ## Constants (modelled from the spec; `constants.py` is not in the sources) -/

/-- Modelled from the spec: interface-configuration code for GPIO only
(both facets disabled).  The concrete value is irrelevant to the proofs;
only distinctness of the five configuration codes matters. -/
def CONFIG_GPIO_ONLY : Nat := 0x00

/-- Modelled from the spec: SPI enabled, I2C pins as GPIO. -/
def CONFIG_SPI_GPIO : Nat := 0x01

/-- Modelled from the spec: I2C enabled, SPI pins as GPIO. -/
def CONFIG_GPIO_I2C : Nat := 0x02

/-- Modelled from the spec: both SPI and I2C enabled
(the power-cycle default forced at open). -/
def CONFIG_SPI_I2C : Nat := 0x03

/-- Modelled from the spec: query sentinel for the configure call. -/
def CONFIG_QUERY : Nat := 0x80

/-- Modelled from the spec: negative status used when a device cannot be
opened; raised by `open` as the `DeviceNotFound` failure. -/
def ERR_UNABLE_TO_OPEN : Int := -7

/-- Modelled from the spec: negative status for a library older than the
firmware requires (`IncompatibleLibrary`). -/
def ERR_INCOMPATIBLE_LIBRARY : Int := -4

/-- Modelled from the spec: negative status for firmware older than the
library requires (`IncompatibleDevice`). -/
def ERR_INCOMPATIBLE_DEVICE : Int := -5

/-- Modelled from the spec: the six GPIO pin bitmasks, distinct powers of two. -/
def GPIO_SCL : Nat := 0x01

/-- Modelled from the spec: SDA pin bitmask. -/
def GPIO_SDA : Nat := 0x02

/-- Modelled from the spec: MISO pin bitmask. -/
def GPIO_MISO : Nat := 0x04

/-- Modelled from the spec: SCK pin bitmask. -/
def GPIO_SCK : Nat := 0x08

/-- Modelled from the spec: MOSI pin bitmask. -/
def GPIO_MOSI : Nat := 0x10

/-- Modelled from the spec: SS pin bitmask. -/
def GPIO_SS : Nat := 0x20

/-! ## Serial-number formatting (`_unique_id_str` in aardvark.py) -/

/-- The character for a decimal digit value, as produced by a %d format. -/
def digitChar (d : Nat) : Char := Char.ofNat (48 + d)

/-- The decimal value of a digit character. -/
def charVal (c : Char) : Nat := c.toNat - 48

/-- Little-endian decimal digits of a number, with explicit fuel so that the
definition is structurally recursive and kernel-reducible. -/
def natDigitsRevFuel : Nat → Nat → List Nat
  | 0, _ => []
  | fuel + 1, n => if n < 10 then [n] else n % 10 :: natDigitsRevFuel fuel (n / 10)

/-- Little-endian decimal digits of a number. -/
def natDigitsRev (n : Nat) : List Nat := natDigitsRevFuel (n + 1) n

/-- Decimal digit characters of a number, most significant first,
as produced by a %d conversion. -/
def decimalDigits (n : Nat) : List Char := ((natDigitsRev n).reverse).map digitChar

/-- Left padding with zero characters to width `w`, as produced by a %0Nd
format specifier. -/
def padZeros (w : Nat) (l : List Char) : List Char :=
  List.replicate (w - l.length) '0' ++ l

/-- Embedding of `_unique_id_str`: format a 32-bit unique id as
NNNN-NNNNNN, quotient by 1000000 zero-padded to 4 digits, dash, remainder
zero-padded to 6 digits.  The source computes the quotient with Python true
division and lets the %d conversion truncate; for every unsigned 32-bit
input the truncated IEEE-754 quotient coincides with floor division
(the quotient is below 4295, where the float error is far smaller than the
minimal distance 1e-6 of a non-exact quotient to an integer), so the
embedding uses natural-number division. -/
def unique_id_str (uid : Nat) : String :=
  String.mk (padZeros 4 (decimalDigits (uid / 1000000)) ++
    '-' :: padZeros 6 (decimalDigits (uid % 1000000)))

/-- Value of a digit-character string read most-significant-first. -/
def valMS (l : List Char) : Nat := l.foldl (fun a c => 10 * a + charVal c) 0

/-- Value of a digit list read most-significant-first. -/
def valMSN (l : List Nat) : Nat := l.foldl (fun a d => 10 * a + d) 0

/-- Value of a little-endian digit list. -/
def valLS (l : List Nat) : Nat := l.foldr (fun d a => 10 * a + d) 0

/-- Parse back a serial-number string NNNN-NNNNNN: split at the first dash
and combine quotient and remainder (the spec's parseBack). -/
def parse_serial (s : String) : Nat :=
  let front := s.data.takeWhile (fun c => c != '-')
  let back := (s.data.dropWhile (fun c => c != '-')).drop 1
  valMS front * 1000000 + valMS back

theorem valLS_natDigitsRevFuel : ∀ (f n : Nat), n < f →
    valLS (natDigitsRevFuel f n) = n := by
  intro f
  induction f with
  | zero => intro n hn; omega
  | succ f ih =>
    intro n hn
    by_cases h : n < 10
    · simp [natDigitsRevFuel, h, valLS]
    · have hdiv : n / 10 < f := by omega
      have := ih (n / 10) hdiv
      simp only [natDigitsRevFuel, h, if_false, valLS, List.foldr_cons] at *
      rw [this]
      omega

theorem valLS_natDigitsRev (n : Nat) : valLS (natDigitsRev n) = n :=
  valLS_natDigitsRevFuel (n + 1) n (Nat.lt_succ_self n)

theorem natDigitsRevFuel_lt_ten : ∀ (f n : Nat), ∀ d ∈ natDigitsRevFuel f n, d < 10 := by
  intro f
  induction f with
  | zero => intro n d hd; simp [natDigitsRevFuel] at hd
  | succ f ih =>
    intro n d hd
    by_cases h : n < 10
    · simp [natDigitsRevFuel, h] at hd; omega
    · simp only [natDigitsRevFuel, h, if_false, List.mem_cons] at hd
      rcases hd with hd | hd
      · omega
      · exact ih (n / 10) d hd

theorem natDigitsRev_lt_ten (n : Nat) : ∀ d ∈ natDigitsRev n, d < 10 :=
  natDigitsRevFuel_lt_ten (n + 1) n

theorem charVal_digitChar : ∀ d, d < 10 → charVal (digitChar d) = d := by decide

theorem digitChar_ne_dash : ∀ d, d < 10 → digitChar d ≠ '-' := by decide

/-- Folding the most-significant-first accumulator over mapped digit
characters computes the same as over the digits themselves. -/
theorem foldl_map_digitChar : ∀ (l : List Nat) (a : Nat), (∀ d ∈ l, d < 10) →
    List.foldl (fun a c => 10 * a + charVal c) a (l.map digitChar) =
    List.foldl (fun a d => 10 * a + d) a l := by
  intro l
  induction l with
  | nil => intro a _; rfl
  | cons d l ih =>
    intro a h
    have hd : d < 10 := h d (List.mem_cons_self d l)
    simp only [List.map_cons, List.foldl_cons, charVal_digitChar d hd]
    exact ih _ (fun x hx => h x (List.mem_cons_of_mem d hx))

theorem foldl_replicate_zeroChar : ∀ (k : Nat),
    List.foldl (fun a c => 10 * a + charVal c) 0 (List.replicate k '0') = 0 := by
  intro k
  induction k with
  | zero => rfl
  | succ k ih => simpa [List.replicate_succ, charVal] using ih

/-- Reading a zero-padded digit rendering most-significant-first recovers
the number. -/
theorem valMS_padZeros_decimalDigits (w n : Nat) :
    valMS (padZeros w (decimalDigits n)) = n := by
  unfold valMS padZeros decimalDigits
  rw [List.foldl_append, foldl_replicate_zeroChar]
  rw [foldl_map_digitChar _ 0 (by
    intro d hd
    exact natDigitsRev_lt_ten n d (List.mem_reverse.mp hd))]
  show List.foldl (fun a d => 10 * a + d) 0 (natDigitsRev n).reverse = n
  rw [List.foldl_reverse]
  exact valLS_natDigitsRev n

theorem padZeros_decimalDigits_ne_dash (w n : Nat) :
    ∀ c ∈ padZeros w (decimalDigits n), c ≠ '-' := by
  intro c hc
  unfold padZeros decimalDigits at hc
  rcases List.mem_append.mp hc with h | h
  · have := List.eq_of_mem_replicate h
    subst this; decide
  · rcases List.mem_map.mp h with ⟨d, hd, rfl⟩
    exact digitChar_ne_dash d (natDigitsRev_lt_ten n d (List.mem_reverse.mp hd))

theorem takeWhile_append_dash (A B : List Char) (h : ∀ c ∈ A, c ≠ '-') :
    (A ++ '-' :: B).takeWhile (fun c => c != '-') = A := by
  induction A with
  | nil => simp [List.takeWhile]
  | cons a A ih =>
    have ha : a ≠ '-' := h a (List.mem_cons_self a A)
    simp only [List.cons_append, List.takeWhile_cons]
    rw [if_pos (by simpa using ha)]
    rw [ih (fun c hc => h c (List.mem_cons_of_mem a hc))]

theorem dropWhile_append_dash (A B : List Char) (h : ∀ c ∈ A, c ≠ '-') :
    (A ++ '-' :: B).dropWhile (fun c => c != '-') = '-' :: B := by
  induction A with
  | nil => simp [List.dropWhile]
  | cons a A ih =>
    have ha : a ≠ '-' := h a (List.mem_cons_self a A)
    simp only [List.cons_append, List.dropWhile_cons]
    rw [if_pos (by simpa using ha)]
    exact ih (fun c hc => h c (List.mem_cons_of_mem a hc))

/-- Parsing the formatted serial number recovers both halves. -/
theorem parse_serial_unique_id_str (uid : Nat) :
    parse_serial (unique_id_str uid) = uid := by
  unfold parse_serial unique_id_str
  show valMS (((padZeros 4 (decimalDigits (uid / 1000000)) ++
      '-' :: padZeros 6 (decimalDigits (uid % 1000000)))).takeWhile
        (fun c => c != '-')) * 1000000 +
    valMS ((((padZeros 4 (decimalDigits (uid / 1000000)) ++
      '-' :: padZeros 6 (decimalDigits (uid % 1000000)))).dropWhile
        (fun c => c != '-')).drop 1) = uid
  rw [takeWhile_append_dash _ _ (padZeros_decimalDigits_ne_dash 4 (uid / 1000000))]
  rw [dropWhile_append_dash _ _ (padZeros_decimalDigits_ne_dash 4 (uid / 1000000))]
  simp only [List.drop_succ_cons, List.drop_zero]
  rw [valMS_padZeros_decimalDigits, valMS_padZeros_decimalDigits]
  calc uid / 1000000 * 1000000 + uid % 1000000
      = 1000000 * (uid / 1000000) + uid % 1000000 := by ring_nf
    _ = uid := Nat.div_add_mod uid 1000000

/-- Claim C9: for every 32-bit unsigned id, formatting it as a serial-number
string (quotient by 1000000 zero-padded to 4 digits, dash, remainder
zero-padded to 6 digits) and parsing that string back yields the original
id; in particular id 1234567890 formats as the string 1234-567890. -/
theorem claim_C9_serial_roundtrip :
    (∀ uid : Nat, uid < 2 ^ 32 → parse_serial (unique_id_str uid) = uid) ∧
    unique_id_str 1234567890 = "1234-567890" := by
  constructor
  · intro uid _
    exact parse_serial_unique_id_str uid
  · rfl

/-- Witness for C9 at the concrete id 1234567890. -/
theorem claim_C9_serial_roundtrip_witness :
    parse_serial (unique_id_str 1234567890) = 1234567890 :=
  claim_C9_serial_roundtrip.1 1234567890 (by decide)

/-! ## Transport calls and the Aardvark object -/

/-- One call to the external `aardvark_py` transport, recorded with the
argument that distinguishes it. -/
inductive ApiCall where
  | aaOpenExt (port : Nat)
  | aaClose (handle : Option Int)
  | aaConfigure (mode : Nat)
  | aaGpioDirection (bitmask : Nat)
  | aaGpioSet (bitmask : Nat)
  | aaGpioPullup (bitmask : Nat)
  | aaGpioChange (timeout : Int)
  | aaUniqueId
  | aaI2cSlaveSetResponse (data : List Nat)
  deriving DecidableEq, Repr

/-- Embedding of the `Aardvark` object: the transport handle and the four
shadow fields initialized by `__init__` (`_i2c_slave_response`,
`_configured_gpio_outputs`, `_high_gpio_outputs`, `_enabled_gpio_pullups`).
The handle is `none` once `close` has run (`self.handle = None`). -/
structure Aardvark where
  handle : Option Int
  i2c_slave_response : Option (List Nat)
  configured_gpio_outputs : List Nat
  high_gpio_outputs : List Nat
  enabled_gpio_pullups : List Nat
  deriving DecidableEq, Repr

/-- Result of a mutating method: the object state afterwards (unchanged when
an exception is raised, since the source assigns the shadow field only after
the status check), the raised IOError code if any, and the transport calls
issued. -/
structure MutRes where
  state : Aardvark
  err : Option Int
  calls : List ApiCall
  deriving DecidableEq, Repr

/-- Embedding of the `configured_gpio_outputs` setter: no transport call when
the summed bitmask equals that of the cached list, otherwise one
`aa_gpio_direction` call, with the cache replaced only on success. -/
def Aardvark.configured_gpio_outputs_set (a : Aardvark) (used_outputs : List Nat)
    (ret : Int) : MutRes :=
  if used_outputs.sum = a.configured_gpio_outputs.sum then ⟨a, none, []⟩
  else if ret < 0 then ⟨a, some ret, [.aaGpioDirection used_outputs.sum]⟩
  else ⟨{ a with configured_gpio_outputs := used_outputs }, none,
    [.aaGpioDirection used_outputs.sum]⟩

/-- Embedding of the `enabled_gpio_pullups` setter, same discipline as the
outputs setter but with its own transport call and cache field. -/
def Aardvark.enabled_gpio_pullups_set (a : Aardvark) (enabled_pullups : List Nat)
    (ret : Int) : MutRes :=
  if enabled_pullups.sum = a.enabled_gpio_pullups.sum then ⟨a, none, []⟩
  else if ret < 0 then ⟨a, some ret, [.aaGpioPullup enabled_pullups.sum]⟩
  else ⟨{ a with enabled_gpio_pullups := enabled_pullups }, none,
    [.aaGpioPullup enabled_pullups.sum]⟩

/-- Embedding of `gpio_set` (drive a GPIO output high): no-op when the pin is
already cached high, otherwise one `aa_gpio_set` call with the summed mask of
the extended list, cache replaced only on success. -/
def Aardvark.gpio_set (a : Aardvark) (output : Nat) (ret : Int) : MutRes :=
  if output ∈ a.high_gpio_outputs then ⟨a, none, []⟩
  else
    let new_list := a.high_gpio_outputs ++ [output]
    if ret < 0 then ⟨a, some ret, [.aaGpioSet new_list.sum]⟩
    else ⟨{ a with high_gpio_outputs := new_list }, none, [.aaGpioSet new_list.sum]⟩

/-- Embedding of `gpio_clear` (drive a GPIO output low): no-op when the pin is
not cached high, otherwise one `aa_gpio_set` call with the summed mask of the
list with the first occurrence removed, cache replaced only on success. -/
def Aardvark.gpio_clear (a : Aardvark) (output : Nat) (ret : Int) : MutRes :=
  if output ∈ a.high_gpio_outputs then
    let new_list := a.high_gpio_outputs.erase output
    if ret < 0 then ⟨a, some ret, [.aaGpioSet new_list.sum]⟩
    else ⟨{ a with high_gpio_outputs := new_list }, none, [.aaGpioSet new_list.sum]⟩
  else ⟨a, none, []⟩

/-- Embedding of `gpio_toggle`: dispatches on cached membership. -/
def Aardvark.gpio_toggle (a : Aardvark) (output : Nat) (ret : Int) : MutRes :=
  if output ∈ a.high_gpio_outputs then a.gpio_clear output ret
  else a.gpio_set output ret

/-- The pin list `gpios` of `gpio_poll`, in source order. -/
def gpioPollPins : List Nat := [GPIO_MISO, GPIO_MOSI, GPIO_SCK, GPIO_SCL, GPIO_SDA, GPIO_SS]

/-- Embedding of `gpio_poll`: one `aa_gpio_change` call; on a non-negative
bitmask, the list of pins whose bit is set. -/
def gpio_poll (timeout : Int) (changeRet : Int) : Except Int (List Nat) × List ApiCall :=
  if changeRet < 0 then (.error changeRet, [.aaGpioChange timeout])
  else (.ok (gpioPollPins.filter fun pin => changeRet.toNat &&& pin != 0),
    [.aaGpioChange timeout])

/-- Embedding of `gpio_get`: cached membership for a configured output (no
transport call), otherwise membership in the result of `gpio_poll 32`. -/
def Aardvark.gpio_get (a : Aardvark) (output : Nat) (changeRet : Int) :
    Except Int Bool × List ApiCall :=
  if output ∈ a.configured_gpio_outputs then
    (.ok (decide (output ∈ a.high_gpio_outputs)), [])
  else
    match gpio_poll 32 changeRet with
    | (.ok pins, calls) => (.ok (decide (output ∈ pins)), calls)
    | (.error e, calls) => (.error e, calls)

/-- Embedding of the `i2c_slave_response` setter: one
`aa_i2c_slave_set_response` call, shadow updated only on success. -/
def Aardvark.i2c_slave_response_set (a : Aardvark) (data : List Nat) (ret : Int) : MutRes :=
  if ret < 0 then ⟨a, some ret, [.aaI2cSlaveSetResponse data]⟩
  else ⟨{ a with i2c_slave_response := some data }, none, [.aaI2cSlaveSetResponse data]⟩

/-- Embedding of `close`: one `aa_close` call with the stored handle, whose
status the source ignores, then the handle is set to `None`.  No error is
ever raised and no closed-state check exists. -/
def Aardvark.close (a : Aardvark) (_closeRet : Int) : MutRes :=
  ⟨{ a with handle := none }, none, [.aaClose a.handle]⟩

/-! ## Interface-configuration state machine (`enable_i2c` / `enable_spi`) -/

/-- Embedding of the `enable_i2c` getter: the configuration has the I2C facet
when it equals `CONFIG_GPIO_I2C` or `CONFIG_SPI_I2C`. -/
def enable_i2c_get (config : Nat) : Bool :=
  config == CONFIG_GPIO_I2C || config == CONFIG_SPI_I2C

/-- Embedding of the `enable_spi` getter: the configuration has the SPI facet
when it equals `CONFIG_SPI_GPIO` or `CONFIG_SPI_I2C`. -/
def enable_spi_get (config : Nat) : Bool :=
  config == CONFIG_SPI_GPIO || config == CONFIG_SPI_I2C

/-- Embedding of the branch chain of the `enable_i2c` setter: the
configuration it will write (equal to the current one when no branch
matches). -/
def enable_i2c_target (config : Nat) (value : Bool) : Nat :=
  if value && config == CONFIG_GPIO_ONLY then CONFIG_GPIO_I2C
  else if value && config == CONFIG_SPI_GPIO then CONFIG_SPI_I2C
  else if !value && config == CONFIG_GPIO_I2C then CONFIG_GPIO_ONLY
  else if !value && config == CONFIG_SPI_I2C then CONFIG_SPI_GPIO
  else config

/-- Embedding of the branch chain of the `enable_spi` setter. -/
def enable_spi_target (config : Nat) (value : Bool) : Nat :=
  if value && config == CONFIG_GPIO_ONLY then CONFIG_SPI_GPIO
  else if value && config == CONFIG_GPIO_I2C then CONFIG_SPI_I2C
  else if !value && config == CONFIG_SPI_GPIO then CONFIG_GPIO_ONLY
  else if !value && config == CONFIG_SPI_I2C then CONFIG_GPIO_I2C
  else config

/-- Transport calls of one `enable_i2c` setter invocation: always one query
call, plus one configuration-change call when the target differs from the
current configuration. -/
def enable_i2c_set_apiCalls (config : Nat) (value : Bool) : List ApiCall :=
  .aaConfigure CONFIG_QUERY ::
    (if enable_i2c_target config value ≠ config
      then [.aaConfigure (enable_i2c_target config value)] else [])

/-- Number of configuration-change calls (the query call excluded) issued by
one `enable_i2c` setter invocation. -/
def enable_i2c_set_changeCalls (config : Nat) (value : Bool) : Nat :=
  if enable_i2c_target config value ≠ config then 1 else 0

/-! ## Session open (`Aardvark.__init__` and module-level `open`) -/

/-- The `aa_open_ext` version block, as read at open time. -/
structure VersionInfo where
  software : Nat
  firmware : Nat
  hardware : Nat
  sw_req_by_fw : Nat
  fw_req_by_sw : Nat
  api_req_by_sw : Nat
  deriving DecidableEq, Repr

/-- Embedding of `Aardvark.__init__`: open the port, gate on the version
thresholds (firmware first, then software), then force the `SPI_I2C`
configuration and initialize the shadow fields.  `openRet` is the handle or
negative status `aa_open_ext` returns, `configureRet` the status of the
initial `aa_configure` call. -/
def aardvark_init (port : Nat) (openRet : Int) (ver : VersionInfo)
    (configureRet : Int) : Except Int Aardvark × List ApiCall :=
  if openRet < 0 then (.error openRet, [.aaOpenExt port])
  else
    let ret : Int :=
      if ver.firmware < ver.fw_req_by_sw then ERR_INCOMPATIBLE_DEVICE
      else if ver.software < ver.sw_req_by_fw then ERR_INCOMPATIBLE_LIBRARY
      else openRet
    if ret < 0 then (.error ret, [.aaOpenExt port])
    else if configureRet < 0 then
      (.error configureRet, [.aaOpenExt port, .aaConfigure CONFIG_SPI_I2C])
    else
      (.ok ⟨some openRet, none, [], [], []⟩,
        [.aaOpenExt port, .aaConfigure CONFIG_SPI_I2C])

/-- One entry of the `find_devices` result, as consumed by `open`. -/
structure DeviceEntry where
  port : Nat
  serialNumber : String
  deriving DecidableEq, Repr

/-- Embedding of the serial-number branch of the module-level `open`:
scan the enumerated devices for the requested serial number (failing with
`ERR_UNABLE_TO_OPEN` when none matches, before any open call), open the
candidate port, then read back the unique id and compare; on mismatch close
the session and fail with `ERR_UNABLE_TO_OPEN`, with no retry.  `uid` is the
value `aa_unique_id` reports for the opened handle. -/
def open_by_serial (devices : List DeviceEntry) (serial : String)
    (openRet : Nat → Int) (ver : VersionInfo) (configureRet : Int) (uid : Nat) :
    Except Int Aardvark × List ApiCall :=
  match devices.find? (fun d => d.serialNumber == serial) with
  | none => (.error ERR_UNABLE_TO_OPEN, [])
  | some d =>
    match aardvark_init d.port (openRet d.port) ver configureRet with
    | (.error e, calls) => (.error e, calls)
    | (.ok dev, calls) =>
      if unique_id_str uid ≠ serial then
        (.error ERR_UNABLE_TO_OPEN,
          calls ++ [.aaUniqueId] ++ (dev.close 0).calls)
      else (.ok dev, calls ++ [.aaUniqueId])

/-- Number of transport open calls in a call trace (used to state that no
retry is attempted). -/
def countOpenCalls (calls : List ApiCall) : Nat :=
  (calls.filter fun c => match c with | .aaOpenExt _ => true | _ => false).length

/-! ## Bitmask-union of a set of pins -/

/-- Bitwise union of a list of pin bitmasks (the bitmask-union of the spec). -/
def unionMask (l : List Nat) : Nat := l.foldr (· ||| ·) 0

/-- A pin argument that denotes a set of pins: no duplicates and every
element one of the six pin bitmasks. -/
def ValidPinList (l : List Nat) : Prop :=
  l.Nodup ∧ ∀ x ∈ l, x ∈ gpioPollPins

theorem pin_lt_64 : ∀ a ∈ gpioPollPins, a < 64 := by decide

theorem pin_and_pin_eq_zero :
    ∀ a ∈ gpioPollPins, ∀ b ∈ gpioPollPins, a ≠ b → a &&& b = 0 := by decide

theorem or_lt_64 : ∀ a < 64, ∀ b < 64, a ||| b < 64 := by decide

theorem add_eq_or_of_and_eq_zero :
    ∀ a < 64, ∀ b < 64, a &&& b = 0 → a + b = a ||| b := by decide

theorem and_or_eq_zero :
    ∀ a ∈ gpioPollPins, ∀ b < 64, ∀ c < 64,
      a &&& b = 0 → a &&& c = 0 → a &&& (b ||| c) = 0 := by decide

theorem and_zero_64 : ∀ a < 64, a &&& 0 = 0 := by decide

theorem unionMask_lt_64 :
    ∀ l : List Nat, (∀ x ∈ l, x ∈ gpioPollPins) → unionMask l < 64 := by
  intro l
  induction l with
  | nil => intro _; decide
  | cons a l ih =>
    intro h
    have ha : a ∈ gpioPollPins := h a (List.mem_cons_self a l)
    have hl : unionMask l < 64 := ih (fun x hx => h x (List.mem_cons_of_mem a hx))
    exact or_lt_64 a (pin_lt_64 a ha) (unionMask l) hl

theorem pin_and_unionMask_eq_zero :
    ∀ l : List Nat, (∀ x ∈ l, x ∈ gpioPollPins) →
    ∀ a ∈ gpioPollPins, a ∉ l → a &&& unionMask l = 0 := by
  intro l
  induction l with
  | nil => intro _ a ha _; exact and_zero_64 a (pin_lt_64 a ha)
  | cons b l ih =>
    intro h a ha hnot
    have hb : b ∈ gpioPollPins := h b (List.mem_cons_self b l)
    have hab : a ≠ b := fun hEq => hnot (hEq ▸ List.mem_cons_self b l)
    have h1 : a &&& b = 0 := pin_and_pin_eq_zero a ha b hb hab
    have h2 : a &&& unionMask l = 0 :=
      ih (fun x hx => h x (List.mem_cons_of_mem b hx)) a ha
        (fun hx => hnot (List.mem_cons_of_mem b hx))
    show a &&& (b ||| unionMask l) = 0
    exact and_or_eq_zero a ha b (pin_lt_64 b hb) (unionMask l)
      (unionMask_lt_64 l (fun x hx => h x (List.mem_cons_of_mem b hx))) h1 h2

/-- For a genuine set of pins (distinct single-bit masks) the summed bitmask
used by the source equals the bitmask-union of the spec. -/
theorem sum_eq_unionMask :
    ∀ l : List Nat, ValidPinList l → l.sum = unionMask l := by
  intro l
  induction l with
  | nil => intro _; rfl
  | cons a l ih =>
    intro ⟨hnd, hmem⟩
    have ha : a ∈ gpioPollPins := hmem a (List.mem_cons_self a l)
    have hnl : l.Nodup := (List.nodup_cons.mp hnd).2
    have hna : a ∉ l := (List.nodup_cons.mp hnd).1
    have hml : ∀ x ∈ l, x ∈ gpioPollPins :=
      fun x hx => hmem x (List.mem_cons_of_mem a hx)
    have hsum : l.sum = unionMask l := ih ⟨hnl, hml⟩
    have hdisj : a &&& unionMask l = 0 :=
      pin_and_unionMask_eq_zero l hml a ha hna
    show a + l.sum = a ||| unionMask l
    rw [hsum]
    exact add_eq_or_of_and_eq_zero a (pin_lt_64 a ha) (unionMask l)
      (unionMask_lt_64 l hml) hdisj

/-! ## Claim theorems -/

/-- Claim C3: for every set of pins passed to the configured-outputs or
pullups setter, when the bitmask-union of the argument equals the
bitmask-union of the cached set no transport call is made, and a second
invocation with the identical set after a successful first invocation issues
no transport call. -/
theorem claim_C3_idempotent_setters :
    ∀ (a : Aardvark) (pins : List Nat) (r1 r2 : Int),
    (ValidPinList pins → ValidPinList a.configured_gpio_outputs →
      unionMask pins = unionMask a.configured_gpio_outputs →
      a.configured_gpio_outputs_set pins r1 = ⟨a, none, []⟩) ∧
    ((a.configured_gpio_outputs_set pins r1).err = none →
      ((a.configured_gpio_outputs_set pins r1).state.configured_gpio_outputs_set
        pins r2).calls = []) ∧
    (ValidPinList pins → ValidPinList a.enabled_gpio_pullups →
      unionMask pins = unionMask a.enabled_gpio_pullups →
      a.enabled_gpio_pullups_set pins r1 = ⟨a, none, []⟩) ∧
    ((a.enabled_gpio_pullups_set pins r1).err = none →
      ((a.enabled_gpio_pullups_set pins r1).state.enabled_gpio_pullups_set
        pins r2).calls = []) := by
  intro a pins r1 r2
  refine ⟨?_, ?_, ?_, ?_⟩
  · intro hp hc hu
    have hs : pins.sum = a.configured_gpio_outputs.sum := by
      rw [sum_eq_unionMask pins hp, sum_eq_unionMask _ hc, hu]
    simp [Aardvark.configured_gpio_outputs_set, hs]
  · intro herr
    by_cases hs : pins.sum = a.configured_gpio_outputs.sum
    · simp [Aardvark.configured_gpio_outputs_set, hs]
    · by_cases hr : r1 < 0
      · simp [Aardvark.configured_gpio_outputs_set, hs, hr] at herr
      · simp [Aardvark.configured_gpio_outputs_set, hs, hr]
  · intro hp hc hu
    have hs : pins.sum = a.enabled_gpio_pullups.sum := by
      rw [sum_eq_unionMask pins hp, sum_eq_unionMask _ hc, hu]
    simp [Aardvark.enabled_gpio_pullups_set, hs]
  · intro herr
    by_cases hs : pins.sum = a.enabled_gpio_pullups.sum
    · simp [Aardvark.enabled_gpio_pullups_set, hs]
    · by_cases hr : r1 < 0
      · simp [Aardvark.enabled_gpio_pullups_set, hs, hr] at herr
      · simp [Aardvark.enabled_gpio_pullups_set, hs, hr]

/-- Witness for C3 at a concrete state whose cached outputs already have the
requested bitmask-union, and at a concrete fresh state written twice. -/
theorem claim_C3_idempotent_setters_witness :
    (Aardvark.configured_gpio_outputs_set ⟨some 1, none, [GPIO_SCL], [], []⟩
      [GPIO_SCL] 0 = ⟨⟨some 1, none, [GPIO_SCL], [], []⟩, none, []⟩) ∧
    ((Aardvark.configured_gpio_outputs_set ⟨some 1, none, [], [], []⟩
        [GPIO_SCL, GPIO_SDA] 0).state.configured_gpio_outputs_set
        [GPIO_SCL, GPIO_SDA] 0).calls = [] := by
  constructor
  · exact (claim_C3_idempotent_setters ⟨some 1, none, [GPIO_SCL], [], []⟩
      [GPIO_SCL] 0 0).1 ⟨by decide, by decide⟩ ⟨by decide, by decide⟩ rfl
  · exact (claim_C3_idempotent_setters ⟨some 1, none, [], [], []⟩
      [GPIO_SCL, GPIO_SDA] 0 0).2.1 (by decide)

/-- Claim C4: each shadow-cache write (outputs setter, pullups setter,
gpio_set, gpio_clear, slave-response setter) raises the transport error and
leaves the object unchanged when the transport call fails, and updates the
cache exactly when the call succeeds. -/
theorem claim_C4_failed_write_preserves_cache :
    ∀ (a : Aardvark) (pins data : List Nat) (output : Nat) (bad good : Int),
    bad < 0 → 0 ≤ good →
    (pins.sum ≠ a.configured_gpio_outputs.sum →
      a.configured_gpio_outputs_set pins bad =
        ⟨a, some bad, [.aaGpioDirection pins.sum]⟩ ∧
      a.configured_gpio_outputs_set pins good =
        ⟨{ a with configured_gpio_outputs := pins }, none,
          [.aaGpioDirection pins.sum]⟩) ∧
    (pins.sum ≠ a.enabled_gpio_pullups.sum →
      a.enabled_gpio_pullups_set pins bad =
        ⟨a, some bad, [.aaGpioPullup pins.sum]⟩ ∧
      a.enabled_gpio_pullups_set pins good =
        ⟨{ a with enabled_gpio_pullups := pins }, none,
          [.aaGpioPullup pins.sum]⟩) ∧
    (output ∉ a.high_gpio_outputs →
      a.gpio_set output bad =
        ⟨a, some bad, [.aaGpioSet (a.high_gpio_outputs ++ [output]).sum]⟩ ∧
      a.gpio_set output good =
        ⟨{ a with high_gpio_outputs := a.high_gpio_outputs ++ [output] }, none,
          [.aaGpioSet (a.high_gpio_outputs ++ [output]).sum]⟩) ∧
    (output ∈ a.high_gpio_outputs →
      a.gpio_clear output bad =
        ⟨a, some bad, [.aaGpioSet (a.high_gpio_outputs.erase output).sum]⟩ ∧
      a.gpio_clear output good =
        ⟨{ a with high_gpio_outputs := a.high_gpio_outputs.erase output }, none,
          [.aaGpioSet (a.high_gpio_outputs.erase output).sum]⟩) ∧
    (a.i2c_slave_response_set data bad =
        ⟨a, some bad, [.aaI2cSlaveSetResponse data]⟩ ∧
      a.i2c_slave_response_set data good =
        ⟨{ a with i2c_slave_response := some data }, none,
          [.aaI2cSlaveSetResponse data]⟩) := by
  intro a pins data output bad good hbad hgood
  have hng : ¬ good < 0 := by omega
  refine ⟨?_, ?_, ?_, ?_, ?_⟩
  · intro hs
    exact ⟨by simp [Aardvark.configured_gpio_outputs_set, hs, hbad],
      by simp [Aardvark.configured_gpio_outputs_set, hs, hng]⟩
  · intro hs
    exact ⟨by simp [Aardvark.enabled_gpio_pullups_set, hs, hbad],
      by simp [Aardvark.enabled_gpio_pullups_set, hs, hng]⟩
  · intro hm
    exact ⟨by simp [Aardvark.gpio_set, hm, hbad],
      by simp [Aardvark.gpio_set, hm, hng]⟩
  · intro hm
    exact ⟨by simp [Aardvark.gpio_clear, hm, hbad],
      by simp [Aardvark.gpio_clear, hm, hng]⟩
  · exact ⟨by simp [Aardvark.i2c_slave_response_set, hbad],
      by simp [Aardvark.i2c_slave_response_set, hng]⟩

/-- Witness for C4 at a concrete fresh state: a failed direction write
leaves the object unchanged, a failed slave-response write likewise. -/
theorem claim_C4_failed_write_preserves_cache_witness :
    (Aardvark.configured_gpio_outputs_set ⟨some 1, none, [], [], []⟩
      [GPIO_SCL] (-1) = ⟨⟨some 1, none, [], [], []⟩, some (-1),
        [.aaGpioDirection 1]⟩) ∧
    (Aardvark.i2c_slave_response_set ⟨some 1, none, [], [], []⟩ [7] (-1) =
      ⟨⟨some 1, none, [], [], []⟩, some (-1), [.aaI2cSlaveSetResponse [7]]⟩) := by
  constructor
  · exact ((claim_C4_failed_write_preserves_cache ⟨some 1, none, [], [], []⟩
      [GPIO_SCL] [7] 0 (-1) 0 (by decide) (by decide)).1 (by decide)).1
  · exact ((claim_C4_failed_write_preserves_cache ⟨some 1, none, [], [], []⟩
      [GPIO_SCL] [7] 0 (-1) 0 (by decide) (by decide)).2.2.2.2).1

/-- The invariant claimed by the spec for the shadow GPIO state: every
driven-high pin is a configured output. -/
def GpioShadowInvariant (a : Aardvark) : Prop :=
  ∀ p ∈ a.high_gpio_outputs, p ∈ a.configured_gpio_outputs

instance (a : Aardvark) : Decidable (GpioShadowInvariant a) := by
  unfold GpioShadowInvariant
  infer_instance

/-- Counterexample to claim C5: from the freshly initialized state (both
sets empty, so the invariant holds), a successful `gpio_set` on pin SS — a
pin that is not a configured output, which the source never checks — yields
a state with the pin driven high but not configured, violating
`drivenHigh ⊆ configuredOutputs`. -/
theorem claim_C5_invariant_counterexample :
    GpioShadowInvariant ⟨some 1, none, [], [], []⟩ ∧
    (Aardvark.gpio_set ⟨some 1, none, [], [], []⟩ GPIO_SS 0).err = none ∧
    ¬ GpioShadowInvariant
      (Aardvark.gpio_set ⟨some 1, none, [], [], []⟩ GPIO_SS 0).state := by
  decide

/-- Claim C5 as amended: the invariant `drivenHigh ⊆ configuredOutputs`
holds on the state produced by session open, and is preserved by
`gpio_clear` and the pullups setter unconditionally, by `gpio_set` and
`gpio_toggle` only when the driven pin is a configured output, and by the
configured-outputs setter only when the new set keeps every currently
driven-high pin; it is not preserved in general (`gpio_set` on a pin outside
the configured outputs breaks it). -/
theorem claim_C5_invariant_amended :
    (∀ (port : Nat) (openRet : Int) (ver : VersionInfo) (configureRet : Int)
      (dev : Aardvark) (calls : List ApiCall),
      aardvark_init port openRet ver configureRet = (.ok dev, calls) →
      GpioShadowInvariant dev) ∧
    (∀ (a : Aardvark) (output : Nat) (ret : Int), GpioShadowInvariant a →
      output ∈ a.configured_gpio_outputs →
      GpioShadowInvariant (a.gpio_set output ret).state) ∧
    (∀ (a : Aardvark) (output : Nat) (ret : Int), GpioShadowInvariant a →
      GpioShadowInvariant (a.gpio_clear output ret).state) ∧
    (∀ (a : Aardvark) (output : Nat) (ret : Int), GpioShadowInvariant a →
      output ∈ a.configured_gpio_outputs →
      GpioShadowInvariant (a.gpio_toggle output ret).state) ∧
    (∀ (a : Aardvark) (pins : List Nat) (ret : Int), GpioShadowInvariant a →
      (∀ p ∈ a.high_gpio_outputs, p ∈ pins) →
      GpioShadowInvariant (a.configured_gpio_outputs_set pins ret).state) ∧
    (∀ (a : Aardvark) (pins : List Nat) (ret : Int), GpioShadowInvariant a →
      GpioShadowInvariant (a.enabled_gpio_pullups_set pins ret).state) := by
  refine ⟨?_, ?_, ?_, ?_, ?_, ?_⟩
  · intro port openRet ver configureRet dev calls h
    unfold aardvark_init at h
    split at h
    · exact Except.noConfusion (congrArg Prod.fst h)
    · dsimp only at h
      split at h
      · exact Except.noConfusion (congrArg Prod.fst h)
      · split at h
        · exact Except.noConfusion (congrArg Prod.fst h)
        · split at h
          · exact Except.noConfusion (congrArg Prod.fst h)
          · have h1 : (Except.ok ⟨some openRet, none, [], [], []⟩ :
                Except Int Aardvark) = .ok dev := congrArg Prod.fst h
            have h2 : (⟨some openRet, none, [], [], []⟩ : Aardvark) = dev := by
              cases h1; rfl
            rw [← h2]
            intro p hp
            simp at hp
  · intro a output ret hinv hout
    unfold Aardvark.gpio_set
    by_cases hm : output ∈ a.high_gpio_outputs
    · simpa [hm] using hinv
    · by_cases hr : ret < 0
      · simpa [hm, hr] using hinv
      · simp only [hm, if_false, hr]
        intro p hp
        simp only [List.mem_append, List.mem_singleton] at hp
        rcases hp with hp | rfl
        · exact hinv p hp
        · exact hout
  · intro a output ret hinv
    unfold Aardvark.gpio_clear
    by_cases hm : output ∈ a.high_gpio_outputs
    · by_cases hr : ret < 0
      · simpa [hm, hr] using hinv
      · simp only [hm, if_true, hr, if_false]
        intro p hp
        exact hinv p (List.mem_of_mem_erase hp)
    · simpa [hm] using hinv
  · intro a output ret hinv hout
    unfold Aardvark.gpio_toggle
    by_cases hm : output ∈ a.high_gpio_outputs
    · simp only [hm, if_true]
      unfold Aardvark.gpio_clear
      by_cases hr : ret < 0
      · simpa [hm, hr] using hinv
      · simp only [hm, if_true, hr, if_false]
        intro p hp
        exact hinv p (List.mem_of_mem_erase hp)
    · simp only [hm, if_false]
      unfold Aardvark.gpio_set
      by_cases hr : ret < 0
      · simpa [hm, hr] using hinv
      · simp only [hm, if_false, hr]
        intro p hp
        simp only [List.mem_append, List.mem_singleton] at hp
        rcases hp with hp | rfl
        · exact hinv p hp
        · exact hout
  · intro a pins ret hinv hkeep
    unfold Aardvark.configured_gpio_outputs_set
    by_cases hs : pins.sum = a.configured_gpio_outputs.sum
    · simpa [hs] using hinv
    · by_cases hr : ret < 0
      · simpa [hs, hr] using hinv
      · simp only [hs, if_false, hr]
        intro p hp
        exact hkeep p hp
  · intro a pins ret hinv
    unfold Aardvark.enabled_gpio_pullups_set
    by_cases hs : pins.sum = a.enabled_gpio_pullups.sum
    · simpa [hs] using hinv
    · by_cases hr : ret < 0
      · simpa [hs, hr] using hinv
      · simp only [hs, if_false, hr]
        intro p hp
        exact hinv p hp

/-- Witness for the amended C5 at concrete inputs: the freshly opened state
satisfies the invariant, and driving high a configured output preserves it. -/
theorem claim_C5_invariant_amended_witness :
    GpioShadowInvariant ⟨some 1, none, [], [], []⟩ ∧
    GpioShadowInvariant
      (Aardvark.gpio_set ⟨some 1, none, [GPIO_SS], [], []⟩ GPIO_SS 0).state := by
  constructor
  · exact claim_C5_invariant_amended.1 0 1 ⟨0, 0, 0, 0, 0, 0⟩ 0
      ⟨some 1, none, [], [], []⟩ [.aaOpenExt 0, .aaConfigure CONFIG_SPI_I2C] rfl
  · exact claim_C5_invariant_amended.2.1 ⟨some 1, none, [GPIO_SS], [], []⟩
      GPIO_SS 0 (by decide) (by decide)

/-- Claim C2: `gpio_get` on a configured output returns the cached
membership in the driven-high set with no transport call — and that cached
answer tracks the last successful `gpio_set`, `gpio_clear` or `gpio_toggle`
on the pin — while on a non-output pin it issues exactly one `aa_gpio_change`
poll and returns membership in the live poll result regardless of the cache. -/
theorem claim_C2_gpio_get_cache_or_poll :
    ∀ (a : Aardvark) (output : Nat) (cr r : Int),
    (output ∈ a.configured_gpio_outputs →
      a.gpio_get output cr = (.ok (decide (output ∈ a.high_gpio_outputs)), [])) ∧
    (output ∈ a.configured_gpio_outputs → (a.gpio_set output r).err = none →
      (a.gpio_set output r).state.gpio_get output cr = (.ok true, [])) ∧
    (output ∈ a.configured_gpio_outputs → a.high_gpio_outputs.Nodup →
      (a.gpio_clear output r).err = none →
      (a.gpio_clear output r).state.gpio_get output cr = (.ok false, [])) ∧
    (output ∈ a.configured_gpio_outputs → a.high_gpio_outputs.Nodup →
      (a.gpio_toggle output r).err = none →
      (a.gpio_toggle output r).state.gpio_get output cr =
        (.ok (decide (output ∉ a.high_gpio_outputs)), [])) ∧
    (output ∉ a.configured_gpio_outputs →
      (a.gpio_get output cr).2 = [.aaGpioChange 32] ∧
      ∀ pins calls, gpio_poll 32 cr = (.ok pins, calls) →
        (a.gpio_get output cr).1 = .ok (decide (output ∈ pins))) := by
  intro a output cr r
  have hset : (a.gpio_set output r).err = none →
      (a.gpio_set output r).state.configured_gpio_outputs =
        a.configured_gpio_outputs ∧
      output ∈ (a.gpio_set output r).state.high_gpio_outputs := by
    intro herr
    unfold Aardvark.gpio_set at *
    by_cases hm : output ∈ a.high_gpio_outputs
    · simp [hm]
    · by_cases hr : r < 0
      · simp [hm, hr] at herr
      · simp [hm, hr]
  have hclear : a.high_gpio_outputs.Nodup → (a.gpio_clear output r).err = none →
      (a.gpio_clear output r).state.configured_gpio_outputs =
        a.configured_gpio_outputs ∧
      output ∉ (a.gpio_clear output r).state.high_gpio_outputs := by
    intro hnd herr
    unfold Aardvark.gpio_clear at *
    by_cases hm : output ∈ a.high_gpio_outputs
    · by_cases hr : r < 0
      · simp [hm, hr] at herr
      · simp only [hm, if_true, hr, if_false]
        exact ⟨trivial, hnd.not_mem_erase⟩
    · simp only [hm, if_false]
      exact ⟨trivial, not_false⟩
  refine ⟨?_, ?_, ?_, ?_, ?_⟩
  · intro hc
    simp [Aardvark.gpio_get, hc]
  · intro hc herr
    obtain ⟨hcfg, hmem⟩ := hset herr
    simp [Aardvark.gpio_get, hcfg, hc, hmem]
  · intro hc hnd herr
    obtain ⟨hcfg, hmem⟩ := hclear hnd herr
    simp [Aardvark.gpio_get, hcfg, hc, hmem]
  · intro hc hnd herr
    unfold Aardvark.gpio_toggle at *
    by_cases hm : output ∈ a.high_gpio_outputs
    · simp only [hm, if_true] at herr ⊢
      obtain ⟨hcfg, hmem⟩ := hclear hnd herr
      simp [Aardvark.gpio_get, hcfg, hc, hmem, hm]
    · simp only [hm, if_false] at herr ⊢
      obtain ⟨hcfg, hmem⟩ := hset herr
      simp [Aardvark.gpio_get, hcfg, hc, hmem, hm]
  · intro hc
    constructor
    · unfold Aardvark.gpio_get gpio_poll
      by_cases hr : cr < 0 <;> simp [hc, hr]
    · intro pins calls hpoll
      unfold Aardvark.gpio_get
      simp [hc, hpoll]

/-- Witness for C2 at concrete states: a configured output pin reads from
the cache with no transport call, and a non-output pin reads from the poll
result. -/
theorem claim_C2_gpio_get_cache_or_poll_witness :
    (Aardvark.gpio_get ⟨some 1, none, [GPIO_SDA], [GPIO_SDA], []⟩ GPIO_SDA 0 =
      (.ok true, [])) ∧
    ((Aardvark.gpio_get ⟨some 1, none, [], [], []⟩ GPIO_SCL 3).2 =
      [.aaGpioChange 32] ∧
     (Aardvark.gpio_get ⟨some 1, none, [], [], []⟩ GPIO_SCL 3).1 =
      .ok (decide (GPIO_SCL ∈ [GPIO_SCL, GPIO_SDA]))) := by
  refine ⟨?_, ?_, ?_⟩
  · exact (claim_C2_gpio_get_cache_or_poll ⟨some 1, none, [GPIO_SDA], [GPIO_SDA], []⟩
      GPIO_SDA 0 0).1 (by decide)
  · exact ((claim_C2_gpio_get_cache_or_poll ⟨some 1, none, [], [], []⟩
      GPIO_SCL 3 0).2.2.2.2 (by decide)).1
  · exact ((claim_C2_gpio_get_cache_or_poll ⟨some 1, none, [], [], []⟩
      GPIO_SCL 3 0).2.2.2.2 (by decide)).2 [GPIO_SCL, GPIO_SDA]
      [.aaGpioChange 32] (by rfl)

theorem enable_i2c_target_of_ge (c : Nat) (hc : 4 ≤ c) (v : Bool) :
    enable_i2c_target c v = c := by
  have h0 : (c == CONFIG_GPIO_ONLY) = false := by
    simp only [CONFIG_GPIO_ONLY, beq_eq_false_iff_ne]; omega
  have h1 : (c == CONFIG_SPI_GPIO) = false := by
    simp only [ CONFIG_SPI_GPIO, beq_eq_false_iff_ne]; omega
  have h2 : (c == CONFIG_GPIO_I2C) = false := by
    simp only [CONFIG_GPIO_I2C, beq_eq_false_iff_ne]; omega
  have h3 : (c == CONFIG_SPI_I2C) = false := by
    simp only [CONFIG_SPI_I2C, beq_eq_false_iff_ne]; omega
  simp [enable_i2c_target, h0, h1, h2, h3]

theorem enable_spi_target_of_ge (c : Nat) (hc : 4 ≤ c) (v : Bool) :
    enable_spi_target c v = c := by
  have h0 : (c == CONFIG_GPIO_ONLY) = false := by
    simp only [CONFIG_GPIO_ONLY, beq_eq_false_iff_ne]; omega
  have h1 : (c == CONFIG_SPI_GPIO) = false := by
    simp only [ CONFIG_SPI_GPIO, beq_eq_false_iff_ne]; omega
  have h2 : (c == CONFIG_GPIO_I2C) = false := by
    simp only [CONFIG_GPIO_I2C, beq_eq_false_iff_ne]; omega
  have h3 : (c == CONFIG_SPI_I2C) = false := by
    simp only [CONFIG_SPI_I2C, beq_eq_false_iff_ne]; omega
  simp [enable_spi_target, h0, h1, h2, h3]

/-- Claim C1: each setter of the configuration state machine holds the other
facet fixed — the SPI facet (as reported by the `enable_spi` getter) is
unchanged by `enable_i2c`, and the I2C facet by `enable_spi`, for every
starting configuration and boolean argument; in particular from `GPIO_I2C`,
enabling SPI yields `SPI_I2C` and disabling it again returns to `GPIO_I2C`,
with the I2C facet enabled across both transitions. -/
theorem claim_C1_setters_preserve_other_facet :
    (∀ (config : Nat) (value : Bool),
      enable_spi_get (enable_i2c_target config value) = enable_spi_get config) ∧
    (∀ (config : Nat) (value : Bool),
      enable_i2c_get (enable_spi_target config value) = enable_i2c_get config) ∧
    enable_spi_target CONFIG_GPIO_I2C true = CONFIG_SPI_I2C ∧
    enable_spi_target CONFIG_SPI_I2C false = CONFIG_GPIO_I2C ∧
    enable_i2c_get CONFIG_GPIO_I2C = true ∧
    enable_i2c_get (enable_spi_target CONFIG_GPIO_I2C true) = true ∧
    enable_i2c_get
      (enable_spi_target (enable_spi_target CONFIG_GPIO_I2C true) false) = true := by
  refine ⟨?_, ?_, by decide, by decide, by decide, by decide, by decide⟩
  · intro c v
    by_cases hc : c < 4
    · interval_cases c <;> cases v <;> decide
    · rw [enable_i2c_target_of_ge c (by omega) v]
  · intro c v
    by_cases hc : c < 4
    · interval_cases c <;> cases v <;> decide
    · rw [enable_spi_target_of_ge c (by omega) v]

/-- The four legal interface configurations. -/
def legalConfigs : List Nat :=
  [CONFIG_GPIO_ONLY, CONFIG_SPI_GPIO, CONFIG_GPIO_I2C, CONFIG_SPI_I2C]

/-- Counterexample to claim C8: starting from `SPI_I2C`, where I2C is
already enabled, two consecutive `enable_i2c = True` invocations issue zero
configuration-change calls (and two query calls), not exactly one transport
configuration call. -/
theorem claim_C8_counterexample :
    enable_i2c_set_changeCalls CONFIG_SPI_I2C true +
      enable_i2c_set_changeCalls (enable_i2c_target CONFIG_SPI_I2C true) true = 0 ∧
    (enable_i2c_set_apiCalls CONFIG_SPI_I2C true).length +
      (enable_i2c_set_apiCalls (enable_i2c_target CONFIG_SPI_I2C true) true).length
      = 2 ∧
    (0 : Nat) ≠ 1 ∧ (2 : Nat) ≠ 1 := by
  refine ⟨by decide, by decide, by decide, by decide⟩

/-- Claim C8 as amended: two consecutive `enable_i2c = True` invocations
issue at most one configuration-change call — the second invocation always
hits the no-op fast path and issues none, the target is idempotent, and from
a legal starting configuration exactly one change call is issued precisely
when I2C was initially disabled (each invocation also issues one unavoidable
query call, not counted as a configuration change). -/
theorem claim_C8_amended_idempotent_setI2c :
    ∀ config : Nat,
    enable_i2c_set_changeCalls (enable_i2c_target config true) true = 0 ∧
    enable_i2c_target (enable_i2c_target config true) true =
      enable_i2c_target config true ∧
    (config ∈ legalConfigs →
      enable_i2c_set_changeCalls config true +
        enable_i2c_set_changeCalls (enable_i2c_target config true) true =
        if enable_i2c_get config then 0 else 1) := by
  intro c
  by_cases hc : c < 4
  · refine ⟨?_, ?_, ?_⟩ <;> (interval_cases c <;> decide)
  · have h1 : enable_i2c_target c true = c := enable_i2c_target_of_ge c (by omega) true
    refine ⟨?_, ?_, ?_⟩
    · rw [h1]
      simp [enable_i2c_set_changeCalls, h1]
    · rw [h1, h1]
    · intro hmem
      exfalso
      have : c = CONFIG_GPIO_ONLY ∨ c = CONFIG_SPI_GPIO ∨ c = CONFIG_GPIO_I2C ∨
          c = CONFIG_SPI_I2C := by simpa [legalConfigs] using hmem
      simp only [CONFIG_GPIO_ONLY, CONFIG_SPI_GPIO, CONFIG_GPIO_I2C,
        CONFIG_SPI_I2C] at this
      omega

/-- Witness for the amended C8 at the concrete starting configuration
`GPIO_ONLY` (I2C disabled): one change call in total. -/
theorem claim_C8_amended_idempotent_setI2c_witness :
    enable_i2c_set_changeCalls CONFIG_GPIO_ONLY true +
      enable_i2c_set_changeCalls (enable_i2c_target CONFIG_GPIO_ONLY true) true =
      if enable_i2c_get CONFIG_GPIO_ONLY then 0 else 1 :=
  (claim_C8_amended_idempotent_setI2c CONFIG_GPIO_ONLY).2.2 (by decide)

/-- Counterexample to claim C6: the library has no closed-session guard.
On the concrete session with handle 1, a first `close` sets the handle to
`None`; a second `close` does not fail with a `ClosedSession` error — no such
error exists in the code and `close` never checks its state or the transport
status (here even a negative transport status is ignored) — it completes
normally, forwarding the `None` handle to the transport. -/
theorem claim_C6_counterexample :
    (Aardvark.close ⟨some 1, none, [], [], []⟩ (-1)).err = none ∧
    (Aardvark.close ⟨some 1, none, [], [], []⟩ (-1)).state.handle = none ∧
    ((Aardvark.close ⟨some 1, none, [], [], []⟩ (-1)).state.close (-1)).err
      = none ∧
    ((Aardvark.close ⟨some 1, none, [], [], []⟩ (-1)).state.close (-1)).calls
      = [ApiCall.aaClose none] := by
  refine ⟨rfl, rfl, rfl, rfl⟩

/-- Claim C6 as amended: `close` performs no closed-state check and defines
no `ClosedSession` error.  It unconditionally issues one transport close
call with the stored handle, sets the handle to `None`, and raises no
library-level error (the transport status is not inspected); a second close
therefore completes normally too, issuing another transport close call with
the `None` handle.  Operations on a closed session are not rejected by the
library; they forward the `None` handle to the transport. -/
theorem claim_C6_amended_close_unchecked :
    ∀ (a : Aardvark) (r1 r2 : Int),
    a.close r1 = ⟨{ a with handle := none }, none, [.aaClose a.handle]⟩ ∧
    (a.close r1).state.close r2 =
      ⟨{ a with handle := none }, none, [.aaClose none]⟩ := by
  intro a r1 r2
  exact ⟨rfl, rfl⟩

/-- Claim C7: opening by serial number fails with the unable-to-open error
and performs no transport open call when no enumerated device carries the
requested serial number; when a candidate is found and opened but reports a
different unique id, the session is closed and the same error is raised,
with exactly one open call (no retry). -/
theorem claim_C7_open_by_serial_protocol :
    ∀ (devices : List DeviceEntry) (serial : String) (openRet : Nat → Int)
      (ver : VersionInfo) (configureRet : Int) (uid : Nat),
    ((∀ d ∈ devices, d.serialNumber ≠ serial) →
      open_by_serial devices serial openRet ver configureRet uid =
        (.error ERR_UNABLE_TO_OPEN, []) ∧
      countOpenCalls
        (open_by_serial devices serial openRet ver configureRet uid).2 = 0) ∧
    (∀ d, devices.find? (fun x => x.serialNumber == serial) = some d →
      0 ≤ openRet d.port →
      ¬ ver.firmware < ver.fw_req_by_sw →
      ¬ ver.software < ver.sw_req_by_fw →
      0 ≤ configureRet →
      unique_id_str uid ≠ serial →
      open_by_serial devices serial openRet ver configureRet uid =
        (.error ERR_UNABLE_TO_OPEN,
          [.aaOpenExt d.port, .aaConfigure CONFIG_SPI_I2C, .aaUniqueId,
            .aaClose (some (openRet d.port))]) ∧
      countOpenCalls
        (open_by_serial devices serial openRet ver configureRet uid).2 = 1) := by
  intro devices serial openRet ver configureRet uid
  constructor
  · intro hnone
    have hfind : devices.find? (fun x => x.serialNumber == serial) = none := by
      rw [List.find?_eq_none]
      intro d hd
      simpa using hnone d hd
    unfold open_by_serial
    rw [hfind]
    exact ⟨rfl, rfl⟩
  · intro d hfind hopen hfw hsw hcfg hmismatch
    have hinit : aardvark_init d.port (openRet d.port) ver configureRet =
        (.ok ⟨some (openRet d.port), none, [], [], []⟩,
          [.aaOpenExt d.port, .aaConfigure CONFIG_SPI_I2C]) := by
      unfold aardvark_init
      rw [if_neg (by omega)]
      simp only [hfw, if_false, hsw]
      rw [if_neg (by omega), if_neg (by omega)]
    have hres : open_by_serial devices serial openRet ver configureRet uid =
        (.error ERR_UNABLE_TO_OPEN,
          [.aaOpenExt d.port, .aaConfigure CONFIG_SPI_I2C, .aaUniqueId,
            .aaClose (some (openRet d.port))]) := by
      unfold open_by_serial
      rw [hfind]
      dsimp only
      rw [hinit]
      dsimp only
      rw [if_pos hmismatch]
      rfl
    refine ⟨hres, ?_⟩
    rw [hres]
    rfl

/-- Witness for C7: with no matching device the open fails without any open
call, and with a matching entry whose opened device reports unique id 0
(formatting to a different serial) the open fails after exactly one open
call and a close call. -/
theorem claim_C7_open_by_serial_protocol_witness :
    (open_by_serial [⟨3, "1111-222222"⟩] "0000-000001" (fun _ => 1)
      ⟨0, 0, 0, 0, 0, 0⟩ 0 0 = (.error ERR_UNABLE_TO_OPEN, [])) ∧
    (open_by_serial [⟨3, "0000-000001"⟩] "0000-000001" (fun _ => 1)
      ⟨0, 0, 0, 0, 0, 0⟩ 0 0 =
      (.error ERR_UNABLE_TO_OPEN,
        [.aaOpenExt 3, .aaConfigure CONFIG_SPI_I2C, .aaUniqueId,
          .aaClose (some 1)])) := by
  constructor
  · exact ((claim_C7_open_by_serial_protocol [⟨3, "1111-222222"⟩] "0000-000001"
      (fun _ => 1) ⟨0, 0, 0, 0, 0, 0⟩ 0 0).1 (by decide)).1
  · exact ((claim_C7_open_by_serial_protocol [⟨3, "0000-000001"⟩] "0000-000001"
      (fun _ => 1) ⟨0, 0, 0, 0, 0, 0⟩ 0 0).2 ⟨3, "0000-000001"⟩ (by rfl)
      (by decide) (by decide) (by decide) (by decide) (by decide)).1

/-- Claim C10: when the open-time version gate fails — firmware older than
the library requires (`IncompatibleDevice`) or library older than the
firmware requires (`IncompatibleLibrary`) — the error is raised after the
transport open call has acquired a handle, and no transport close call is
issued before raising: the call trace is exactly the one open call. -/
theorem claim_C10_version_gate_leaks_handle :
    ∀ (port : Nat) (openRet : Int) (ver : VersionInfo) (configureRet : Int),
    0 ≤ openRet →
    (ver.firmware < ver.fw_req_by_sw →
      aardvark_init port openRet ver configureRet =
        (.error ERR_INCOMPATIBLE_DEVICE, [.aaOpenExt port]) ∧
      ∀ h, ApiCall.aaClose h ∉
        (aardvark_init port openRet ver configureRet).2) ∧
    (¬ ver.firmware < ver.fw_req_by_sw → ver.software < ver.sw_req_by_fw →
      aardvark_init port openRet ver configureRet =
        (.error ERR_INCOMPATIBLE_LIBRARY, [.aaOpenExt port]) ∧
      ∀ h, ApiCall.aaClose h ∉
        (aardvark_init port openRet ver configureRet).2) := by
  intro port openRet ver configureRet hopen
  constructor
  · intro hfw
    have heq : aardvark_init port openRet ver configureRet =
        (.error ERR_INCOMPATIBLE_DEVICE, [.aaOpenExt port]) := by
      unfold aardvark_init
      rw [if_neg (by omega)]
      simp only [hfw, if_true]
      rw [if_pos (by decide)]
    refine ⟨heq, ?_⟩
    rw [heq]
    intro h hmem
    simp at hmem
  · intro hfw hsw
    have heq : aardvark_init port openRet ver configureRet =
        (.error ERR_INCOMPATIBLE_LIBRARY, [.aaOpenExt port]) := by
      unfold aardvark_init
      rw [if_neg (by omega)]
      simp only [hfw, if_false, hsw, if_true]
      rw [if_pos (by decide)]
    refine ⟨heq, ?_⟩
    rw [heq]
    intro h hmem
    simp at hmem

/-- Witness for C10 at concrete inputs: a successful open (handle 1) with
firmware 1 below the required 2 fails with the incompatible-device error
while the trace holds only the open call; symmetrically for the software
gate. -/
theorem claim_C10_version_gate_leaks_handle_witness :
    (aardvark_init 0 1 ⟨5, 1, 0, 0, 2, 0⟩ 0 =
      (.error ERR_INCOMPATIBLE_DEVICE, [.aaOpenExt 0])) ∧
    (aardvark_init 0 1 ⟨1, 5, 0, 2, 0, 0⟩ 0 =
      (.error ERR_INCOMPATIBLE_LIBRARY, [.aaOpenExt 0])) := by
  constructor
  · exact ((claim_C10_version_gate_leaks_handle 0 1 ⟨5, 1, 0, 0, 2, 0⟩ 0
      (by decide)).1 (by decide)).1
  · exact ((claim_C10_version_gate_leaks_handle 0 1 ⟨1, 5, 0, 2, 0, 0⟩ 0
      (by decide)).2 (by decide) (by decide)).1
